import Mathlib

/-! Verification of the RAT transport protocol implementation (`src/rat.py`).

The definitions below are a shallow embedding of `rat.py`.  Python byte
strings are modelled as `List Char`: every byte the program ever builds is an
ASCII character, because the header codec assembles headers out of the
characters '0' and '1' (and, for negative inputs to `zero_pad`, the character
'b' leaking out of Python's `bin()` prefix).  Python exceptions are modelled
by `Except PyErr`.  Stateful socket operations take the socket record and
return the (possibly updated) record together with the normal or exceptional
outcome, following the statement order of the source.  Where a source
function dies on an unbound Python name (`NameError` / `UnboundLocalError`),
the embedding returns the corresponding error at the same program point.
-/

namespace RatProto

/-- The collection of connection states in the RAT protocol (`class State`). -/
inductive State where
  | SOCK_UNOPENED | SOCK_SERVOPEN | SOCK_HLOSENT | SOCK_HLORECV
  | SOCK_ESTABLISHED | SOCK_BYESENT | SOCK_BYERECV | SOCK_CLOSED
deriving DecidableEq

/-- The collection of header flags in the RAT protocol (`class Flag`). -/
inductive Flag where
  | ACK | NACK | SWIN | RST | ALI | HLO | BYE | EXP
deriving DecidableEq, Fintype

/-- Python identifiers that `rat.py` references but never binds; evaluating
them raises `NameError` (for globals) or `UnboundLocalError` (for locals). -/
inductive PyName where
  | construct_header | state_check | flag_header | retry_times
deriving DecidableEq

/-- The Python exceptions the embedded code can raise. -/
inductive PyErr where
  | ioError (msg : String)
  | assertionError (msg : String)
  | valueError
  | typeError
  | indexError
  | nameError (global_name : PyName)
  | unboundLocalError (local_name : PyName)
deriving DecidableEq

deriving instance DecidableEq for Except

def RAT_MAX_SEQ_NUM : Nat := 65535
def RAT_MAX_STREAM_ID : Nat := 65535
def RAT_RETRY_TIMES : Nat := 5
def RAT_HEADER_SIZE : Nat := 64
def RAT_PAYLOAD_SIZE : Nat := 512
def RAT_DEFAULT_WINDOW : Nat := 5
def RAT_REPLY_TIMEOUT : Nat := 4

def ERR_STATE : String :=
  "<error> Cannot perform operation in current connection state!"
def ERR_HEADER_INVALID : String :=
  "<error> RAT header size mismatch; header may be malformed!"
def ERR_NUM_OUT_OF_RANGE : String :=
  "<error> Number out of range!"

def RAT_FLAG_ORDER : List Flag :=
  [.ACK, .NACK, .SWIN, .RST, .ALI, .HLO, .BYE, .EXP]

/-- Binary digits of `n`, most significant first, with fuel for structural
recursion (fuel `≥ n` suffices, since the fuel drops by one while the value
halves).  `bitsAux n n` equals Python's `bin(n)[2:]` for `n ≥ 1`. -/
def bitsAux : Nat → Nat → List Char
  | 0, _ => []
  | _, 0 => []
  | fuel + 1, n + 1 =>
    bitsAux fuel ((n + 1) / 2) ++ [if (n + 1) % 2 = 1 then '1' else '0']

/-- Python's `bin(n)[2:]` for a natural number: binary digits, MSB first,
and the single digit "0" for zero. -/
def natBinStr (n : Nat) : List Char :=
  if n = 0 then ['0'] else bitsAux n n

/-- One step of evaluating a big-endian binary digit string. -/
def binVal (acc : Nat) (c : Char) : Nat :=
  2 * acc + (if c = '1' then 1 else 0)

/-- Python's `int(s, 2)` on the byte strings this codebase produces: succeeds
exactly on nonempty strings of '0'/'1' digits, raising `ValueError` otherwise
(which is what `int` does on the 'b' character that `zero_pad` emits for
negative inputs). -/
def parseBin2 (cs : List Char) : Except PyErr Nat :=
  if cs.isEmpty then .error .valueError
  else if cs.all (fun c => c == '0' || c == '1') then .ok (cs.foldl binVal 0)
  else .error .valueError

/-- `RatSocket.zero_pad`: `num = bin(int(num))[2:]` (for negative `num` this
is 'b' followed by the digits of `|num|`, since only the first two characters
of "-0b..." are dropped), then left-pad with '0' to `length` characters,
raising `AssertionError(ERR_NUM_OUT_OF_RANGE)` when the digits already
overflow the field. -/
def zero_pad (num : Int) (length : Nat) : Except PyErr (List Char) :=
  let numStr : List Char :=
    if num < 0 then 'b' :: natBinStr num.natAbs else natBinStr num.toNat
  let padding : Int := (length : Int) - (numStr.length : Int)
  if padding < 0 then .error (.assertionError ERR_NUM_OUT_OF_RANGE)
  else .ok (List.replicate padding.toNat '0' ++ numStr)

/-- `RatSocket.flag_set`: the 8-character '0'/'1' string of the given flags
in the fixed order `RAT_FLAG_ORDER`. -/
def flag_set (flags : List Flag) : List Char :=
  RAT_FLAG_ORDER.map fun flag => if flag ∈ flags then '1' else '0'

/-- `RatSocket.flag_decode`: reads the first 8 characters of the flag field
(`IndexError` when it is shorter; CPython's interning of one-character
strings makes the source's `is "1"` behave as character equality). -/
def flag_decode (flag_field_bits : List Char) : Except PyErr (List Flag) :=
  if flag_field_bits.length < 8 then .error .indexError
  else .ok ((List.range 8).filterMap fun bit =>
    if flag_field_bits.getD bit '0' = '1' then some (RAT_FLAG_ORDER.getD bit .ACK)
    else none)

/-- `RatSocket.construct_header`, with the `self.stream_id` / `self.seq_num`
fields passed explicitly.  Concatenates `zero_pad` fields of widths 16, 16,
16, the flag string as-is (`bytes(flags, "utf-8")`), and width 8, in source
order; the first failing `zero_pad` aborts the whole construction. -/
def construct_header (stream_id seq_num : Int) (length : Int) (flags : List Char)
    (offset : Int) : Except PyErr (List Char) :=
  match zero_pad stream_id 16 with
  | .error e => .error e
  | .ok f1 =>
    match zero_pad seq_num 16 with
    | .error e => .error e
    | .ok f2 =>
      match zero_pad length 16 with
      | .error e => .error e
      | .ok f3 =>
        match zero_pad offset 8 with
        | .error e => .error e
        | .ok f5 => .ok (f1 ++ f2 ++ f3 ++ flags ++ f5)

/-- The decoded header dictionary returned by `decode_rat_header`. -/
structure RatHeader where
  stream_id : Nat
  seq_num : Nat
  length : Nat
  flags : List Char
  offset : Nat
deriving DecidableEq

/-- Python slice `byte_stream[a:b]` (for `a ≤ b` within bounds). -/
def pySlice (byte_stream : List Char) (a b : Nat) : List Char :=
  (byte_stream.drop a).take (b - a)

/-- `RatSocket.decode_rat_header`: rejects any input whose length differs
from `RAT_HEADER_SIZE` (which is 64, so a real 8-byte input is rejected),
then parses the four numeric fields with `int(_, 2)` and returns the flag
slice raw.  The source extracts the flag slice between `length` and
`offset`; that extraction cannot fail, so the failure order is preserved. -/
def decode_rat_header (byte_stream : List Char) : Except PyErr RatHeader :=
  if byte_stream.length ≠ RAT_HEADER_SIZE then .error (.ioError ERR_HEADER_INVALID)
  else
    match parseBin2 (pySlice byte_stream 0 16) with
    | .error e => .error e
    | .ok stream_id =>
      match parseBin2 (pySlice byte_stream 16 32) with
      | .error e => .error e
      | .ok seq_num =>
        match parseBin2 (pySlice byte_stream 32 48) with
        | .error e => .error e
        | .ok length =>
          match parseBin2 (pySlice byte_stream 56 64) with
          | .error e => .error e
          | .ok offset =>
            .ok { stream_id := stream_id, seq_num := seq_num, length := length,
                  flags := pySlice byte_stream 48 56, offset := offset }

/-- The per-socket state of `class RatSocket` (the connection-relevant
fields; the raw UDP handle and debug flag carry no protocol state).
`active_streams` records the stream ids of the child sockets a listener has
appended (the source stores the child socket objects themselves; only the
fact of registration is ever observable in the claims). -/
structure RatSocket where
  current_state : State
  stream_id : Int
  seq_num : Int
  window_size : Nat
  remote_addr : String × Int
  active_streams : List Int
  obey_keepalives : Bool
  num_connections : Nat
deriving DecidableEq

def LOCALHOST : String := "localhost"
def TEST_ADDR : String := "127.0.0.1"

/-- `RatSocket.__init__`. -/
def ratSocketInit : RatSocket :=
  { current_state := .SOCK_UNOPENED
    stream_id := 0
    seq_num := 0
    window_size := 0
    remote_addr := (LOCALHOST, 0)
    active_streams := []
    obey_keepalives := true
    num_connections := 0 }

/-- A socket in a given state, with the remaining fields at test values. -/
def mkSock (st : State) (sid seqn : Int) : RatSocket :=
  { current_state := st
    stream_id := sid
    seq_num := seqn
    window_size := RAT_DEFAULT_WINDOW
    remote_addr := (TEST_ADDR, 8080)
    active_streams := []
    obey_keepalives := true
    num_connections := 0 }

/-- The argument of `state_check`: the source passes either a single `State`
member (from `listen` and `accept`) or a list of states (only from the dead
call in `recv`). -/
inductive StateArg where
  | single (s : State)
  | list (ss : List State)

/-- `RatSocket.state_check`.  For a single-`State` argument and a mismatched
current state, the source evaluates `self.current_state not in state` where
`state` is an `Enum` member — which is not iterable, so Python raises
`TypeError`, not the `IOError(ERR_STATE)` two lines below.  For a list
argument, `current_state != state` is always `True` (an enum never equals a
list), so the membership test decides between success and
`IOError(ERR_STATE)`. -/
def state_check (self : RatSocket) (state : StateArg) : Except PyErr Unit :=
  match state with
  | .single st => if self.current_state = st then .ok () else .error .typeError
  | .list ss =>
    if self.current_state ∈ ss then .ok () else .error (.ioError ERR_STATE)

/-- `RatSocket.listen`.  The UDP `bind` is modelled as succeeding. -/
def listen (self : RatSocket) (address : String) (port : Int)
    (num_connections : Nat) : RatSocket × Except PyErr Unit :=
  match state_check self (.single .SOCK_UNOPENED) with
  | .error e => (self, .error e)
  | .ok _ =>
    let _ := (address, port)
    ({ self with
        num_connections := num_connections
        current_state := .SOCK_SERVOPEN }, .ok ())

/-- `RatSocket.accept`, applied to the datagram `incoming` delivered by the
blocking `recvfrom`, its sender `address`, and the value `rand_stream_id`
drawn by `randrange(1, RAT_MAX_STREAM_ID)`.  After spawning and registering
the child, the retry loop's condition evaluates `flag_header(ack, Flag.ACK)`
— an unbound global name (the source defines no such function) — so Python
raises `NameError` before the first `ACK, HLO` send attempt. -/
def accept (self : RatSocket) (incoming : List Char) (address : String × Int)
    (rand_stream_id : Int) : RatSocket × Except PyErr (Option RatSocket) :=
  match state_check self (.single .SOCK_SERVOPEN) with
  | .error e => (self, .error e)
  | .ok _ =>
    match decode_rat_header incoming with
    | .error e => (self, .error e)
    | .ok hlo =>
      match flag_decode hlo.flags with
      | .error e => (self, .error e)
      | .ok fl =>
        if Flag.HLO ∈ fl then
          let _child : RatSocket :=
            { ratSocketInit with
              remote_addr := address
              current_state := .SOCK_HLORECV
              stream_id := rand_stream_id
              window_size := RAT_DEFAULT_WINDOW
              seq_num := 1 }
          let self' :=
            { self with active_streams := self.active_streams ++ [rand_stream_id] }
          (self', .error (.nameError .flag_header))
        else (self, .ok none)

/-- `RatSocket.connect`.  After setting the reply timeout and
`self.remote_addr`, the loop condition reads `retry_times`, a local variable
whose only assignment sits inside the loop's `except` branch, so the first
read raises `UnboundLocalError` — before any state transition, any send, and
without any state check ever being performed. -/
def connect (self : RatSocket) (address : String) (port : Int) :
    RatSocket × Except PyErr Unit :=
  let self' := { self with remote_addr := (address, port) }
  (self', .error (.unboundLocalError .retry_times))

/-- `RatSocket.send`.  On a nonempty byte string the first loop iteration
evaluates `construct_header(len(data), 0, 0)` — an unbound global name (the
method is only reachable as `self.construct_header`) — so Python raises
`NameError` with the socket unchanged; on an empty byte string both loops
run zero iterations and the call returns `None` with no state check and no
I/O. -/
def send (self : RatSocket) (bytes : List Char) : RatSocket × Except PyErr Unit :=
  if bytes.length ≠ 0 then (self, .error (.nameError .construct_header))
  else (self, .ok ())

/-- `RatSocket.recv`.  The first statement calls `state_check([...])`, an
unbound global name (the method is only reachable as `self.state_check`), so
every call raises `NameError`; the body also ends without a `return`, so no
call could ever produce the received bytes. -/
def recv (self : RatSocket) (buffer_size : Nat) :
    RatSocket × Except PyErr (Option (List Char)) :=
  let _ := buffer_size
  (self, .error (.nameError .state_check))

/-- `RatSocket.close`: the body is `pass  # TODO: implement`. -/
def close (self : RatSocket) : RatSocket × Except PyErr Unit :=
  (self, .ok ())

/-- The `sent` flag after the bounded send loop shared by `ack`/`nack`: one
entry of `outcomes` per attempted `sendto` (`true` = no exception). -/
def trySend : List Bool → Bool
  | [] => false
  | o :: rest => if o then true else trySend rest

/-- `RatSocket.ack`, parameterised by the success of each of the (at most
`RAT_RETRY_TIMES`) `sendto` attempts.  Exceptions from `sendto` are swallowed
by the loop, whose only product is the unused `sent` flag; the trailing
`self.seq_num += 1` runs regardless.  Only `construct_header` (evaluated
before the loop) can raise. -/
def ack (self : RatSocket) (send_outcomes : List Bool) :
    RatSocket × Except PyErr Unit :=
  match construct_header self.stream_id self.seq_num 0 (flag_set [.ACK]) 0 with
  | .error e => (self, .error e)
  | .ok _ackBytes =>
    let _sent := trySend (send_outcomes.take RAT_RETRY_TIMES)
    ({ self with seq_num := self.seq_num + 1 }, .ok ())

/-- The exact 64-character datagram a client HLO produces (stream id and
sequence number 0, flag string "00000100"): the successful value of
`construct_header 0 0 0 (flag_set [.HLO]) 0`. -/
def hloHeaderBytes : List Char :=
  ((construct_header 0 0 0 (flag_set [.HLO]) 0).toOption).getD []

def ovaltine : List Char := "Make sure to drink your ovaltine.".toList

def allFail : List Bool := [false, false, false, false, false]

def estSock : RatSocket := mkSock .SOCK_ESTABLISHED 1 1
def closedSock : RatSocket := mkSock .SOCK_CLOSED 1 1
def unopenedSock : RatSocket := mkSock .SOCK_UNOPENED 0 0
def servSock : RatSocket := mkSock .SOCK_SERVOPEN 0 0

lemma bitsAux_mem (f : Nat) : ∀ n : Nat, ∀ c ∈ bitsAux f n, c = '0' ∨ c = '1' := by
  induction f with
  | zero => intro n c hc; simp [bitsAux] at hc
  | succ f ih =>
    intro n c hc
    cases n with
    | zero => simp [bitsAux] at hc
    | succ m =>
      simp only [bitsAux, List.mem_append, List.mem_singleton] at hc
      rcases hc with hc | hc
      · exact ih _ c hc
      · subst hc; split <;> simp

lemma bitsAux_len_le (f : Nat) : ∀ w n : Nat, n < 2 ^ w → (bitsAux f n).length ≤ w := by
  induction f with
  | zero => intro w n _; simp [bitsAux]
  | succ f ih =>
    intro w n hn
    cases n with
    | zero => simp [bitsAux]
    | succ m =>
      cases w with
      | zero => simp at hn
      | succ v =>
        have h2 : (m + 1) / 2 < 2 ^ v := by
          rw [Nat.div_lt_iff_lt_mul (by norm_num)]
          rw [pow_succ] at hn; omega
        have := ih v ((m + 1) / 2) h2
        simp only [bitsAux, List.length_append, List.length_singleton]
        omega

lemma bitsAux_len_gt (f : Nat) : ∀ w n : Nat, n ≤ f → 2 ^ w ≤ n → w < (bitsAux f n).length := by
  induction f with
  | zero =>
    intro w n hn hw
    have h1 : 1 ≤ 2 ^ w := Nat.one_le_two_pow
    omega
  | succ f ih =>
    intro w n hn hw
    cases n with
    | zero =>
      have h1 : 1 ≤ 2 ^ w := Nat.one_le_two_pow
      omega
    | succ m =>
      cases w with
      | zero =>
        simp only [bitsAux, List.length_append, List.length_singleton]
        omega
      | succ v =>
        have hdiv : 2 ^ v ≤ (m + 1) / 2 := by
          rw [Nat.le_div_iff_mul_le (by norm_num)]
          rw [pow_succ] at hw; omega
        have hfuel : (m + 1) / 2 ≤ f := by omega
        have := ih v ((m + 1) / 2) hfuel hdiv
        simp only [bitsAux, List.length_append, List.length_singleton]
        omega

lemma bitsAux_foldl (f : Nat) : ∀ n acc : Nat, n ≤ f →
    (bitsAux f n).foldl binVal acc = acc * 2 ^ (bitsAux f n).length + n := by
  induction f with
  | zero =>
    intro n acc hn
    have : n = 0 := by omega
    subst this; simp [bitsAux]
  | succ f ih =>
    intro n acc hn
    cases n with
    | zero => simp [bitsAux]
    | succ m =>
      have hfuel : (m + 1) / 2 ≤ f := by omega
      simp only [bitsAux, List.foldl_append, List.foldl_cons, List.foldl_nil,
        List.length_append, List.length_singleton]
      rw [ih ((m + 1) / 2) acc hfuel, pow_succ]
      have hA : acc * (2 ^ (bitsAux f ((m + 1) / 2)).length * 2) =
          2 * (acc * 2 ^ (bitsAux f ((m + 1) / 2)).length) := by ring
      rw [hA]
      by_cases hp : (m + 1) % 2 = 1
      · rw [if_pos hp]
        simp only [binVal, if_pos rfl, if_true]
        omega
      · rw [if_neg hp]
        simp only [binVal]
        rw [if_neg (by decide : ¬('0' = '1'))]
        omega

lemma natBinStr_mem (n : Nat) : ∀ c ∈ natBinStr n, c = '0' ∨ c = '1' := by
  unfold natBinStr; split
  · simp
  · exact bitsAux_mem n n

lemma natBinStr_ne_nil (n : Nat) : natBinStr n ≠ [] := by
  unfold natBinStr; split
  · simp
  · next h =>
    cases n with
    | zero => exact absurd rfl h
    | succ m => simp [bitsAux]

lemma natBinStr_len_le (w n : Nat) (hw : 0 < w) (hn : n < 2 ^ w) :
    (natBinStr n).length ≤ w := by
  unfold natBinStr; split
  · simpa using hw
  · exact bitsAux_len_le n w n hn

lemma natBinStr_len_gt (w n : Nat) (hn : 2 ^ w ≤ n) : w < (natBinStr n).length := by
  unfold natBinStr; split
  · next h =>
    subst h
    have h1 : 1 ≤ 2 ^ w := Nat.one_le_two_pow
    omega
  · exact bitsAux_len_gt n w n le_rfl hn

lemma natBinStr_foldl (n : Nat) : (natBinStr n).foldl binVal 0 = n := by
  unfold natBinStr; split
  · next h => subst h; simp [binVal]
  · have := bitsAux_foldl n n 0 le_rfl
    simpa using this

lemma foldl_replicate_zero (p : Nat) : (List.replicate p '0').foldl binVal 0 = 0 := by
  induction p with
  | zero => simp
  | succ p ih => simpa [List.replicate_succ, binVal] using ih

lemma parseBin2_pad (p n : Nat) :
    parseBin2 (List.replicate p '0' ++ natBinStr n) = .ok n := by
  unfold parseBin2
  rw [if_neg, if_pos]
  · rw [List.foldl_append, foldl_replicate_zero, natBinStr_foldl]
  · rw [List.all_eq_true]
    intro c hc
    rcases List.mem_append.1 hc with hc | hc
    · have := List.eq_of_mem_replicate hc
      subst this; simp
    · rcases natBinStr_mem n c hc with h | h <;> subst h <;> simp
  · simp [List.isEmpty_iff, natBinStr_ne_nil]

lemma zero_pad_nonneg (n w : Nat) :
    zero_pad (n : Int) w =
      if ((w : Int) - ((natBinStr n).length : Int) < 0)
      then .error (.assertionError ERR_NUM_OUT_OF_RANGE)
      else .ok (List.replicate ((w : Int) - ((natBinStr n).length : Int)).toNat '0'
                ++ natBinStr n) := by
  have h : ¬((n : Int) < 0) := by simp
  unfold zero_pad
  simp only [h, if_false, Int.toNat_natCast]

lemma zero_pad_nat_ok (n w : Nat) (hw : 0 < w) (hn : n < 2 ^ w) :
    zero_pad (n : Int) w =
      .ok (List.replicate (w - (natBinStr n).length) '0' ++ natBinStr n) := by
  have hlen : (natBinStr n).length ≤ w := natBinStr_len_le w n hw hn
  rw [zero_pad_nonneg, if_neg (by omega)]
  have ht : ((w : Int) - ((natBinStr n).length : Int)).toNat
      = w - (natBinStr n).length := by omega
  rw [ht]

lemma zero_pad_nat_err (n w : Nat) (hn : 2 ^ w ≤ n) :
    zero_pad (n : Int) w = .error (.assertionError ERR_NUM_OUT_OF_RANGE) := by
  have hlen : w < (natBinStr n).length := natBinStr_len_gt w n hn
  rw [zero_pad_nonneg, if_pos (by omega)]

lemma zero_pad_roundtrip (n w : Nat) (hw : 0 < w) (hn : n < 2 ^ w) :
    ∃ cs, zero_pad (n : Int) w = .ok cs ∧ cs.length = w ∧ parseBin2 cs = .ok n := by
  have hlen : (natBinStr n).length ≤ w := natBinStr_len_le w n hw hn
  refine ⟨List.replicate (w - (natBinStr n).length) '0' ++ natBinStr n,
    zero_pad_nat_ok n w hw hn, ?_, parseBin2_pad _ n⟩
  simp only [List.length_append, List.length_replicate]
  omega

lemma zero_pad_int_ok (num : Int) (w : Nat) (hw : 0 < w) (h0 : 0 ≤ num)
    (hn : num < (2 : Int) ^ w) : ∃ cs, zero_pad num w = .ok cs := by
  have hnum : num = ((num.toNat : Nat) : Int) := (Int.toNat_of_nonneg h0).symm
  have hlt : num.toNat < 2 ^ w := by
    have h2 : ((2 ^ w : Nat) : Int) = (2 : Int) ^ w := by push_cast; ring
    omega
  rw [hnum]
  exact ⟨_, zero_pad_nat_ok num.toNat w hw hlt⟩

lemma construct_ok (sid seq len off : Int) (fl c1 c2 c3 c5 : List Char)
    (e1 : zero_pad sid 16 = .ok c1) (e2 : zero_pad seq 16 = .ok c2)
    (e3 : zero_pad len 16 = .ok c3) (e5 : zero_pad off 8 = .ok c5) :
    construct_header sid seq len fl off = .ok (c1 ++ c2 ++ c3 ++ fl ++ c5) := by
  unfold construct_header
  rw [e1, e2, e3, e5]

lemma construct_err1 (sid seq len off : Int) (fl : List Char) (er : PyErr)
    (e1 : zero_pad sid 16 = .error er) :
    construct_header sid seq len fl off = .error er := by
  unfold construct_header
  rw [e1]

lemma construct_err2 (sid seq len off : Int) (fl c1 : List Char) (er : PyErr)
    (e1 : zero_pad sid 16 = .ok c1) (e2 : zero_pad seq 16 = .error er) :
    construct_header sid seq len fl off = .error er := by
  unfold construct_header
  rw [e1, e2]

lemma construct_err3 (sid seq len off : Int) (fl c1 c2 : List Char) (er : PyErr)
    (e1 : zero_pad sid 16 = .ok c1) (e2 : zero_pad seq 16 = .ok c2)
    (e3 : zero_pad len 16 = .error er) :
    construct_header sid seq len fl off = .error er := by
  unfold construct_header
  rw [e1, e2, e3]

lemma construct_err5 (sid seq len off : Int) (fl c1 c2 c3 : List Char) (er : PyErr)
    (e1 : zero_pad sid 16 = .ok c1) (e2 : zero_pad seq 16 = .ok c2)
    (e3 : zero_pad len 16 = .ok c3) (e5 : zero_pad off 8 = .error er) :
    construct_header sid seq len fl off = .error er := by
  unfold construct_header
  rw [e1, e2, e3, e5]

lemma decode_fields (c1 c2 c3 fl c5 : List Char)
    (l1 : c1.length = 16) (l2 : c2.length = 16) (l3 : c3.length = 16)
    (l4 : fl.length = 8) (l5 : c5.length = 8)
    (sid seq len off : Nat)
    (p1 : parseBin2 c1 = .ok sid) (p2 : parseBin2 c2 = .ok seq)
    (p3 : parseBin2 c3 = .ok len) (p5 : parseBin2 c5 = .ok off) :
    decode_rat_header (c1 ++ c2 ++ c3 ++ fl ++ c5) =
      .ok { stream_id := sid, seq_num := seq, length := len,
            flags := fl, offset := off } := by
  have hassoc : c1 ++ c2 ++ c3 ++ fl ++ c5 = c1 ++ (c2 ++ (c3 ++ (fl ++ c5))) := by
    simp [List.append_assoc]
  have hlen : (c1 ++ c2 ++ c3 ++ fl ++ c5).length = 64 := by
    simp only [List.length_append]
    omega
  have d16 : (c1 ++ c2 ++ c3 ++ fl ++ c5).drop 16 = c2 ++ (c3 ++ (fl ++ c5)) := by
    rw [hassoc]; exact List.drop_left' l1
  have d32 : (c1 ++ c2 ++ c3 ++ fl ++ c5).drop 32 = c3 ++ (fl ++ c5) := by
    rw [show (32 : Nat) = 16 + 16 from rfl, ← List.drop_drop, d16]
    exact List.drop_left' l2
  have d48 : (c1 ++ c2 ++ c3 ++ fl ++ c5).drop 48 = fl ++ c5 := by
    rw [show (48 : Nat) = 32 + 16 from rfl, ← List.drop_drop, d32]
    exact List.drop_left' l3
  have d56 : (c1 ++ c2 ++ c3 ++ fl ++ c5).drop 56 = c5 := by
    rw [show (56 : Nat) = 48 + 8 from rfl, ← List.drop_drop, d48]
    exact List.drop_left' l4
  have s1 : pySlice (c1 ++ c2 ++ c3 ++ fl ++ c5) 0 16 = c1 := by
    simp only [pySlice, List.drop_zero, Nat.sub_zero]
    rw [hassoc]; exact List.take_left' l1
  have s2 : pySlice (c1 ++ c2 ++ c3 ++ fl ++ c5) 16 32 = c2 := by
    simp only [pySlice, show (32 : Nat) - 16 = 16 from rfl]
    rw [d16]; exact List.take_left' l2
  have s3 : pySlice (c1 ++ c2 ++ c3 ++ fl ++ c5) 32 48 = c3 := by
    simp only [pySlice, show (48 : Nat) - 32 = 16 from rfl]
    rw [d32]; exact List.take_left' l3
  have s4 : pySlice (c1 ++ c2 ++ c3 ++ fl ++ c5) 48 56 = fl := by
    simp only [pySlice, show (56 : Nat) - 48 = 8 from rfl]
    rw [d48]; exact List.take_left' l4
  have s5 : pySlice (c1 ++ c2 ++ c3 ++ fl ++ c5) 56 64 = c5 := by
    simp only [pySlice, show (64 : Nat) - 56 = 8 from rfl]
    rw [d56, ← l5]
    exact List.take_length c5
  unfold decode_rat_header
  rw [if_neg (by rw [hlen]; decide)]
  rw [s1, p1, s2, p2, s3, p3, s5, p5, s4]

/-- Claim C1 (code_bug evidence): on an Established pair, `send` of a
nonempty byte string raises `NameError` at the unbound global
`construct_header` before transmitting anything, and `recv` raises
`NameError` at the unbound global `state_check` on every call (its body also
has no `return`), so `send(b)` followed by `recv(len(b))` can never
reproduce `b` — here evaluated at the repository's own test payload. -/
theorem C1_send_recv_crash :
    send estSock ovaltine = (estSock, .error (.nameError .construct_header)) ∧
    recv estSock ovaltine.length = (estSock, .error (.nameError .state_check)) :=
  ⟨rfl, rfl⟩

/-- Claim C2: for every header whose integer fields fit their bit widths
(stream_id, seq_num, length ≤ 65535, offset ≤ 255) and every 8-character
flag field, decoding the encoded header returns exactly the original field
values; both directions are pure functions of their inputs. -/
theorem C2_header_roundtrip (stream_id seq_num length offset : Nat)
    (flags : List Char)
    (h1 : stream_id ≤ 65535) (h2 : seq_num ≤ 65535) (h3 : length ≤ 65535)
    (h4 : offset ≤ 255) (h5 : flags.length = 8) :
    ∃ bs, construct_header stream_id seq_num length flags offset = .ok bs ∧
      decode_rat_header bs =
        .ok { stream_id := stream_id, seq_num := seq_num, length := length,
              flags := flags, offset := offset } := by
  have h16 : (2 : Nat) ^ 16 = 65536 := by norm_num
  have h8 : (2 : Nat) ^ 8 = 256 := by norm_num
  obtain ⟨c1, e1, l1, p1⟩ := zero_pad_roundtrip stream_id 16 (by norm_num) (by omega)
  obtain ⟨c2, e2, l2, p2⟩ := zero_pad_roundtrip seq_num 16 (by norm_num) (by omega)
  obtain ⟨c3, e3, l3, p3⟩ := zero_pad_roundtrip length 16 (by norm_num) (by omega)
  obtain ⟨c5, e5, l5, p5⟩ := zero_pad_roundtrip offset 8 (by norm_num) (by omega)
  refine ⟨c1 ++ c2 ++ c3 ++ flags ++ c5, ?_, ?_⟩
  · exact construct_ok _ _ _ _ _ _ _ _ _ e1 e2 e3 e5
  · exact decode_fields c1 c2 c3 flags c5 l1 l2 l3 h5 l5 _ _ _ _ p1 p2 p3 p5

/-- Witness for C2 at the spec's own end-to-end scenario: stream_id 42,
seq_num 7, length 0, flags ACK, offset 0. -/
theorem C2_header_roundtrip_witness :
    ∃ bs, construct_header 42 7 0 (flag_set [.ACK]) 0 = .ok bs ∧
      decode_rat_header bs =
        .ok { stream_id := 42, seq_num := 7, length := 0,
              flags := flag_set [.ACK], offset := 0 } :=
  C2_header_roundtrip 42 7 0 0 (flag_set [.ACK])
    (by norm_num) (by norm_num) (by norm_num) (by norm_num) (by decide)

/-- Claim C3 (code_bug evidence): a successfully encoded header is 64 bytes
long (one ASCII '0'/'1' character per header bit), not the 8 bytes that the
claim, the spec, and `construct_header`'s own docstring state; and
`decode_rat_header` raises `IOError(ERR_HEADER_INVALID)` on an 8-byte input,
accepting (here: round-tripping) only 64-byte inputs. -/
theorem C3_header_size_bug :
    (construct_header 0 0 0 (flag_set [.HLO]) 0).map List.length = .ok 64 ∧
    decode_rat_header (List.replicate 8 '0') = .error (.ioError ERR_HEADER_INVALID) ∧
    decode_rat_header hloHeaderBytes =
      .ok { stream_id := 0, seq_num := 0, length := 0,
            flags := flag_set [.HLO], offset := 0 } :=
  ⟨rfl, rfl, rfl⟩

/-- Counterexample for C4: a negative field value is NOT rejected.
`zero_pad(-1, 16)` silently succeeds — Python's `bin(-1)[2:]` is "b1", so
the field is zero-padded to "00000000000000b1" — and a whole header with
seq_num = -1 is produced without any `NumberOutOfRange` error. -/
theorem C4_negative_not_rejected :
    zero_pad (-1) 16 = .ok (List.replicate 14 '0' ++ ['b', '1']) ∧
    construct_header 0 (-1) 0 (flag_set [.ACK]) 0 =
      .ok (List.replicate 16 '0' ++ (List.replicate 14 '0' ++ ['b', '1'])
           ++ List.replicate 16 '0' ++ flag_set [.ACK] ++ List.replicate 8 '0') :=
  ⟨rfl, rfl⟩

/-- Claim C4 (amended): for every nonnegative integer field value at or
above 2^width (stream_id, seq_num, length ≥ 2^16, or offset ≥ 2^8),
encoding fails with `AssertionError(ERR_NUM_OUT_OF_RANGE)` before any header
bytes are produced; negative values, however, are not rejected (see the
counterexample). -/
theorem C4_out_of_range_rejected (stream_id seq_num length offset : Nat)
    (flags : List Char)
    (h : 65536 ≤ stream_id ∨ 65536 ≤ seq_num ∨ 65536 ≤ length ∨ 256 ≤ offset) :
    construct_header stream_id seq_num length flags offset =
      .error (.assertionError ERR_NUM_OUT_OF_RANGE) := by
  have h16 : (2 : Nat) ^ 16 = 65536 := by norm_num
  have h8 : (2 : Nat) ^ 8 = 256 := by norm_num
  by_cases hs : stream_id < 65536
  · obtain ⟨c1, e1, _, _⟩ := zero_pad_roundtrip stream_id 16 (by norm_num) (by omega)
    by_cases hq : seq_num < 65536
    · obtain ⟨c2, e2, _, _⟩ := zero_pad_roundtrip seq_num 16 (by norm_num) (by omega)
      by_cases hl : length < 65536
      · obtain ⟨c3, e3, _, _⟩ := zero_pad_roundtrip length 16 (by norm_num) (by omega)
        have hoff : 256 ≤ offset := by rcases h with h | h | h | h <;> omega
        exact construct_err5 _ _ _ _ _ _ _ _ _ e1 e2 e3
          (zero_pad_nat_err offset 8 (by omega))
      · exact construct_err3 _ _ _ _ _ _ _ _ e1 e2
          (zero_pad_nat_err length 16 (by omega))
    · exact construct_err2 _ _ _ _ _ _ _ e1
        (zero_pad_nat_err seq_num 16 (by omega))
  · exact construct_err1 _ _ _ _ _ _
      (zero_pad_nat_err stream_id 16 (by omega))

/-- Witness for the amended C4 at stream_id = 65536 = 2^16. -/
theorem C4_out_of_range_rejected_witness :
    construct_header ((65536 : Nat) : Int) 0 0 (flag_set []) 0 =
      .error (.assertionError ERR_NUM_OUT_OF_RANGE) :=
  C4_out_of_range_rejected 65536 0 0 0 (flag_set []) (Or.inl (by norm_num))

set_option maxRecDepth 10000 in
set_option maxHeartbeats 2000000 in
/-- Claim C5: for every subset F of the eight flags, encoding F in the
fixed order ACK, NACK, SWIN, RST, ALI, HLO, BYE, EXP and decoding the
resulting 8-bit field yields exactly F again (`flag_decode` succeeds, and
membership in its result coincides with membership in F); both functions
are total on these inputs. -/
theorem C5_flag_roundtrip :
    ∀ F : Finset Flag,
      flag_decode (flag_set (RAT_FLAG_ORDER.filter (fun f => f ∈ F))) =
        .ok (RAT_FLAG_ORDER.filter (fun f => f ∈ F)) ∧
      ∀ f : Flag, (f ∈ RAT_FLAG_ORDER.filter (fun g => g ∈ F)) ↔ f ∈ F := by
  decide

/-- Claim C6 (code_bug evidence): no operation ever fails with the
StateViolation error `IOError(ERR_STATE)`.  With a single required state and
a mismatched current state, `state_check` evaluates
`self.current_state not in state` on a non-iterable `Enum` member and raises
`TypeError` instead (shown via `listen` on a closed socket); `close` and
`send(b"")` perform no state check at all and return normally in every
state; `connect` and `recv` never reach a state check, dying with
`UnboundLocalError`/`NameError`. -/
theorem C6_state_guard_bug :
    listen closedSock TEST_ADDR 8080 5 = (closedSock, .error .typeError) ∧
    state_check closedSock (.single .SOCK_UNOPENED) = .error .typeError ∧
    close closedSock = (closedSock, .ok ()) ∧
    send closedSock [] = (closedSock, .ok ()) ∧
    connect closedSock TEST_ADDR 9090 =
      ({ closedSock with remote_addr := (TEST_ADDR, 9090) },
       .error (.unboundLocalError .retry_times)) ∧
    recv closedSock 1 = (closedSock, .error (.nameError .state_check)) :=
  ⟨rfl, rfl, rfl, rfl, rfl, rfl⟩

/-- Claim C7 (code_bug evidence): on a ServerOpen listener that receives a
well-formed HLO header, `accept` registers the child and then raises
`NameError` at the unbound global `flag_header` in its retry-loop condition
— before even the first of the five ACK+HLO send attempts (and so never
returns a failure indicator); `connect` likewise raises `UnboundLocalError`
on its never-initialised retry counter before any attempt.  The listener's
own state is still ServerOpen at the raise. -/
theorem C7_handshake_retry_bug :
    construct_header 0 0 0 (flag_set [.HLO]) 0 = .ok hloHeaderBytes ∧
    accept servSock hloHeaderBytes (TEST_ADDR, 9000) 7 =
      ({ servSock with active_streams := [7] }, .error (.nameError .flag_header)) ∧
    (accept servSock hloHeaderBytes (TEST_ADDR, 9000) 7).1.current_state =
      .SOCK_SERVOPEN ∧
    connect unopenedSock TEST_ADDR 8080 =
      ({ unopenedSock with remote_addr := (TEST_ADDR, 8080) },
       .error (.unboundLocalError .retry_times)) :=
  ⟨rfl, rfl, rfl, rfl⟩

/-- Claim C8 (code_bug evidence): `connect` can never report a retry
failure: for every socket it raises `UnboundLocalError` reading its
never-initialised `retry_times` at the loop condition, with the connection
state (though not `remote_addr`) unchanged — the retry exchange never runs,
and the unconditional `current_state = SOCK_ESTABLISHED` commit after the
loop (which would fire even with the budget exhausted) is unreachable. -/
theorem C8_retry_state_bug :
    ∀ (self : RatSocket) (address : String) (port : Int),
      connect self address port =
        ({ self with remote_addr := (address, port) },
         .error (.unboundLocalError .retry_times)) ∧
      (connect self address port).1.current_state = self.current_state :=
  fun _ _ _ => ⟨rfl, rfl⟩

/-- Claim C9 (code_bug evidence): `close` is `pass  # TODO: implement` — on
an Established connection it sends no BYE, performs no handshake, and leaves
the state Established rather than moving to ByeSent/Closed; and a socket in
the Closed state is not sealed: `close` and `send(b"")` on it return
normally, and no `ConnectionClosed` error exists anywhere in the code. -/
theorem C9_close_teardown_bug :
    close estSock = (estSock, .ok ()) ∧
    (close estSock).1.current_state = .SOCK_ESTABLISHED ∧
    close closedSock = (closedSock, .ok ()) ∧
    send closedSock [] = (closedSock, .ok ()) :=
  ⟨rfl, rfl, rfl, rfl⟩

/-- Counterexample for C10: `ack` is NOT exception-free on every connection.
On a connection whose seq_num has grown to 65536 (reachable by 65537
successive `ack` calls, since the code never wraps seq_num mod 65536),
`construct_header` inside `ack` raises
`AssertionError(ERR_NUM_OUT_OF_RANGE)` and seq_num is not incremented. -/
theorem C10_seq_overflow_raises :
    ack (mkSock .SOCK_ESTABLISHED 1 65536) allFail =
      (mkSock .SOCK_ESTABLISHED 1 65536,
       .error (.assertionError ERR_NUM_OUT_OF_RANGE)) :=
  rfl

/-- Claim C10 (amended): on every connection whose stream_id and seq_num lie
in [0, 65535] — the range in which the header encodes — `ack` returns
normally whatever the outcomes of its (at most `RAT_RETRY_TIMES`) `sendto`
attempts, all of whose exceptions it swallows, and it increments seq_num by
exactly 1 while leaving current_state, stream_id, window_size and
remote_addr (and every other field) unchanged. -/
theorem C10_ack_increments (self : RatSocket) (send_outcomes : List Bool)
    (hs0 : 0 ≤ self.stream_id) (hs1 : self.stream_id < 65536)
    (hq0 : 0 ≤ self.seq_num) (hq1 : self.seq_num < 65536) :
    ack self send_outcomes = ({ self with seq_num := self.seq_num + 1 }, .ok ()) := by
  have h16 : ((2 : Int) ^ 16) = 65536 := by norm_num
  obtain ⟨c1, e1⟩ := zero_pad_int_ok self.stream_id 16 (by norm_num) hs0 (by omega)
  obtain ⟨c2, e2⟩ := zero_pad_int_ok self.seq_num 16 (by norm_num) hq0 (by omega)
  have e3 : zero_pad (0 : Int) 16 = .ok (List.replicate 15 '0' ++ ['0']) := rfl
  have e5 : zero_pad (0 : Int) 8 = .ok (List.replicate 7 '0' ++ ['0']) := rfl
  unfold ack
  rw [construct_ok _ _ _ _ _ _ _ _ _ e1 e2 e3 e5]

/-- Witness for the amended C10 at a concrete Established socket with
seq_num 5 and all five transmission attempts failing. -/
theorem C10_ack_increments_witness :
    ack (mkSock .SOCK_ESTABLISHED 1 5) allFail =
      ({ mkSock .SOCK_ESTABLISHED 1 5 with seq_num := 6 }, .ok ()) :=
  C10_ack_increments (mkSock .SOCK_ESTABLISHED 1 5) allFail
    (by decide) (by decide) (by decide) (by decide)

end RatProto
